import Mathlib

/-!
Verification of the heim deployment agent against its design document.

The embedding covers: the JSON value tree that serde_json produces from
manifest bytes, the derived deserializers of the manifest model
(src/heim.rs), the manifest loader load_heim, the configuration loader
(src/config.rs) with its u16 port field, and the echo HTTP handler
(src/main.rs).  Parts of the design that the repository does not yet
implement (the deployment pipeline, manifest serialization and
validation) are modelled from the design document and marked as such in
their doc comments.
-/

/-- JSON value tree: the shape that serde_json parses manifest bytes into.
Numbers are modelled as integers, which covers every numeric field the
program declares (only the TOML port, an integer). -/
inductive Json where
  | null : Json
  | bool : Bool → Json
  | num : Int → Json
  | str : String → Json
  | arr : List Json → Json
  | obj : List (String × Json) → Json

/-- First-occurrence field lookup in a decoded JSON object. -/
def jlookup (k : String) : List (String × Json) → Option Json
  | [] => none
  | e :: rest => if e.1 = k then some e.2 else jlookup k rest

/-- Decoder for a JSON string, as serde does for a String field. -/
def decodeString : Json → Except String String
  | .str s => .ok s
  | _ => .error ("expected a string")

/-- Decoder for a JSON boolean, as serde does for a bool field. -/
def decodeBool : Json → Except String Bool
  | .bool b => .ok b
  | _ => .error ("expected a boolean")

/-- Decode every element of a JSON array with the given element decoder,
failing when any element fails, as serde does for a Vec field. -/
def decodeList (f : Json → Except String A) : List Json → Except String (List A)
  | [] => .ok []
  | j :: rest => do
    let a ← f j
    let as ← decodeList f rest
    .ok (a :: as)

/-- Decoder for a JSON array. -/
def decodeArr (f : Json → Except String A) : Json → Except String (List A)
  | .arr js => decodeList f js
  | _ => .error ("expected an array")

/-- Decoder for an optional value: JSON null becomes none, anything else
must decode with the inner decoder, as serde does for an Option field. -/
def decodeOpt (f : Json → Except String A) : Json → Except String (Option A)
  | .null => .ok none
  | j => (f j).map some

/-- Required field of a serde struct: a missing key is a decode error. -/
def reqField (f : Json → Except String A) (o : List (String × Json)) (k : String) :
    Except String A :=
  match jlookup k o with
  | none => .error ("missing field " ++ k)
  | some v => f v

/-- Optional field of a serde struct: a missing key defaults to none. -/
def optField (f : Json → Except String A) (o : List (String × Json)) (k : String) :
    Except String (Option A) :=
  match jlookup k o with
  | none => .ok none
  | some v => decodeOpt f v

/-- Hook command record, from struct Run in src/heim.rs lines 30 to 33. -/
structure Run where
  powershell : Option String
deriving DecidableEq

/-- One deployable unit, from struct Artifact in src/heim.rs lines 19 to 28. -/
structure Artifact where
  id : String
  kind : String
  backup : Bool
  destination : String
  excluded_files : Option (List String)
  run_before : Option Run
  run_after : Option Run
deriving DecidableEq

/-- Manifest body, from struct Deploy in src/heim.rs lines 13 to 17. -/
structure Deploy where
  root_path : String
  artifacts : List Artifact
deriving DecidableEq

/-- Manifest root document, from struct Heim in src/heim.rs lines 8 to 11. -/
structure Heim where
  deploy : Deploy
deriving DecidableEq

/-- Derived deserializer of Run: one optional string field. -/
def Run.fromJson? : Json → Except String Run
  | .obj o => (optField decodeString o ("powershell")).map (fun p => ⟨p⟩)
  | _ => .error ("expected an object")

/-- Derived deserializer of Artifact: id, kind, backup and destination are
required; excluded_files, run_before and run_after are optional.  Unknown
keys are ignored, since the struct does not deny unknown fields. -/
def Artifact.fromJson? : Json → Except String Artifact
  | .obj o => do
    let i ← reqField decodeString o ("id")
    let k ← reqField decodeString o ("kind")
    let b ← reqField decodeBool o ("backup")
    let d ← reqField decodeString o ("destination")
    let ex ← optField (decodeArr decodeString) o ("excluded_files")
    let rb ← optField Run.fromJson? o ("run_before")
    let ra ← optField Run.fromJson? o ("run_after")
    .ok ⟨i, k, b, d, ex, rb, ra⟩
  | _ => .error ("expected an object")

/-- Derived deserializer of Deploy: root_path and artifacts are required. -/
def Deploy.fromJson? : Json → Except String Deploy
  | .obj o => do
    let r ← reqField decodeString o ("root_path")
    let as ← reqField (decodeArr Artifact.fromJson?) o ("artifacts")
    .ok ⟨r, as⟩
  | _ => .error ("expected an object")

/-- Derived deserializer of Heim: the single required field deploy. -/
def Heim.fromJson? : Json → Except String Heim
  | .obj o => (reqField Deploy.fromJson? o ("deploy")).map (fun d => ⟨d⟩)
  | _ => .error ("expected an object")

/-- Error kind enumeration from src/error.rs lines 9 to 12: it has the
single variant ArtifactError. -/
inductive ErrorKind where
  | ArtifactError
deriving DecidableEq

/-- Error record from src/error.rs lines 3 to 7. -/
structure HeimError where
  kind : ErrorKind
  message : String
deriving DecidableEq

/-- Manifest loader, from load_heim in src/heim.rs lines 35 to 53.  The
input models the result of reading Heim.json: none is a read failure, and
a readable file is given as its parsed JSON value, with structural decode
failure standing for a serde_json parse failure.  Both failure paths of
the source build the same HeimError value. -/
def load_heim (file : Option Json) : Except HeimError Heim :=
  match file with
  | none => .error ⟨.ArtifactError, "Failed to read Heim.json."⟩
  | some j =>
    match Heim.fromJson? j with
    | .error _ => .error ⟨.ArtifactError, "Failed to read Heim.json."⟩
    | .ok h => .ok h

/-- Logging settings, from struct Log in src/config.rs lines 4 to 7. -/
structure Log where
  path : String
deriving DecidableEq

/-- Service-mode settings, from struct AsService in src/config.rs lines 9 to 12. -/
structure AsService where
  active : Bool
deriving DecidableEq

/-- Host settings, from struct Host in src/config.rs lines 14 to 17.  The
source declares port as u16; the range constraint lives in the decoder. -/
structure Host where
  port : Nat
deriving DecidableEq

/-- Settings root, from struct Config in src/config.rs lines 19 to 24. -/
structure Config where
  log : Log
  service : AsService
  host : Host
deriving DecidableEq

/-- Decoder for a u16 field: a TOML integer outside 0 to 65535 is a
deserialization error, as serde reports for an out-of-range integer. -/
def decodeU16 : Json → Except String Nat
  | .num n => if 0 ≤ n ∧ n < 65536 then .ok n.toNat else .error ("invalid u16")
  | _ => .error ("expected an integer")

/-- Derived deserializer of Log: the required string field path.  TOML
tables are modelled with the same value tree as JSON objects. -/
def Log.fromToml : Json → Except String Log
  | .obj o => (reqField decodeString o ("path")).map (fun p => ⟨p⟩)
  | _ => .error ("expected a table")

/-- Derived deserializer of AsService: the required bool field active. -/
def AsService.fromToml : Json → Except String AsService
  | .obj o => (reqField decodeBool o ("active")).map (fun a => ⟨a⟩)
  | _ => .error ("expected a table")

/-- Derived deserializer of Host: the required u16 field port. -/
def Host.fromToml : Json → Except String Host
  | .obj o => (reqField decodeU16 o ("port")).map (fun p => ⟨p⟩)
  | _ => .error ("expected a table")

/-- Derived deserializer of Config: the log, service and host tables are
all required. -/
def Config.fromToml : Json → Except String Config
  | .obj o => do
    let l ← reqField Log.fromToml o ("log")
    let s ← reqField AsService.fromToml o ("service")
    let h ← reqField Host.fromToml o ("host")
    .ok ⟨l, s, h⟩
  | _ => .error ("expected a table")

/-- Configuration loader, from load_config in src/config.rs lines 26 to 30.
The input models the result of reading Config.toml, as for load_heim. -/
def load_config (file : Option Json) : Except String Config :=
  match file with
  | none => .error ("failed to read Config.toml")
  | some t => Config.fromToml t

/-- Echo request and response body, from struct EchoPayload in
src/main.rs lines 76 to 79. -/
structure EchoPayload where
  message : String
deriving DecidableEq

/-- Derived deserializer of EchoPayload: the required string field message. -/
def EchoPayload.fromJson? : Json → Except String EchoPayload
  | .obj o => (reqField decodeString o ("message")).map (fun m => ⟨m⟩)
  | _ => .error ("expected an object")

/-- Derived serializer of EchoPayload. -/
def EchoPayload.toJson (p : EchoPayload) : Json :=
  .obj [("message", .str p.message)]

/-- Echo handler body, from echo in src/main.rs lines 81 to 83: it returns
its decoded payload unchanged. -/
def echo (payload : EchoPayload) : EchoPayload := payload

/-- The POST /echo route end to end: the axum Json extractor decodes the
body, the handler runs, and the response is the serialized result. -/
def handleEcho (body : Json) : Except String Json :=
  (EchoPayload.fromJson? body).map (fun p => EchoPayload.toJson (echo p))

/-- Serializer for an optional value: none becomes JSON null. -/
def optJson (f : A → Json) : Option A → Json
  | none => .null
  | some x => f x

/-- Modelled from the spec: manifest serialization is absent from src
(no Serialize derive exists in src/heim.rs); this writes the manifest
file format of section 6, emitting every field of Run. -/
def Run.toJson (r : Run) : Json :=
  .obj [("powershell", optJson Json.str r.powershell)]

/-- Modelled from the spec: manifest serialization is absent from src;
this writes one artifact entry of the manifest file format of section 6. -/
def Artifact.toJson (a : Artifact) : Json :=
  .obj [("id", .str a.id), ("kind", .str a.kind), ("backup", .bool a.backup),
    ("destination", .str a.destination),
    ("excluded_files", optJson (fun l => .arr (l.map Json.str)) a.excluded_files),
    ("run_before", optJson Run.toJson a.run_before),
    ("run_after", optJson Run.toJson a.run_after)]

/-- Modelled from the spec: manifest serialization is absent from src;
this writes the root document of the manifest file format of section 6. -/
def Heim.toJson (h : Heim) : Json :=
  .obj [("deploy", .obj [("root_path", .str h.deploy.root_path),
    ("artifacts", .arr (h.deploy.artifacts.map Artifact.toJson))])]

/-- True when two consecutive dots occur in the character list. -/
def hasDotDot : List Char → Bool
  | [] => false
  | [_] => false
  | a :: b :: rest =>
    (a == Char.ofNat 46 && b == Char.ofNat 46) || hasDotDot (b :: rest)

/-- Modelled from the spec, section 4.1: a destination is admissible when
it is non-empty and is not an absolute path escaping the root tree (no
leading slash or backslash, no drive colon, no dot-dot component).
Characters 47, 92 and 58 are slash, backslash and colon. -/
def destinationSafe (p : String) : Bool :=
  match p.toList with
  | [] => false
  | c :: rest =>
    (c != Char.ofNat 47) && (c != Char.ofNat 92) &&
      (!(c :: rest).contains (Char.ofNat 58)) && (!hasDotDot (c :: rest))

/-- True when some artifact id occurs twice in the list. -/
def hasDuplicateIds : List Artifact → Bool
  | [] => false
  | a :: rest => rest.any (fun b => b.id == a.id) || hasDuplicateIds rest

/-- Modelled from the spec, section 4.1: post-decode validation is absent
from src; the design requires a non-empty root_path, unique artifact ids,
and a safe destination on every artifact, rejecting the manifest whole
otherwise. -/
def validate (h : Heim) : Except String Unit :=
  if h.deploy.root_path.isEmpty then .error ("root_path is empty")
  else if hasDuplicateIds h.deploy.artifacts then .error ("duplicate artifact id")
  else if h.deploy.artifacts.all (fun a => destinationSafe a.destination) then .ok ()
  else .error ("unsafe destination")

/-- On-disk state for the deployment pipeline model: a finite map from
full file paths to file contents. -/
abbrev FsState := List (String × String)

/-- Deployment outcome record, from the spec, section 4.4 step 7. -/
structure DeployResult where
  artifact_id : String
  success : Bool
  backup_location : Option String
  messages : List String
deriving DecidableEq

/-- Deployment failure taxonomy, from the spec, section 7, restricted to
the outcomes a single deploy call can produce. -/
inductive DeployError where
  | ArtifactNotFound
  | BackupFailed
  | HookFailed (phase : String) (reason : String)
  | InstallFailed
deriving DecidableEq

/-- Run a hook through an oracle telling which commands succeed; a hook
record without a command succeeds trivially. -/
def runHook (hookOk : String → Bool) : Run → Bool
  | ⟨none⟩ => true
  | ⟨some cmd⟩ => hookOk cmd

/-- Copy every file under the destination directory into a backup
location named from the artifact id. -/
def deployBackup (aid dest : String) (fs : FsState) : FsState :=
  fs ++ (fs.filter (fun e => e.1.startsWith (dest ++ "/"))).map
    (fun e => ("backup/" ++ aid ++ "/" ++ e.1, e.2))

/-- Replace the contents of the destination directory with the staged
payload, keeping every excluded file at its current value and dropping
payload entries that collide with an excluded name. -/
def deployInstall (dest : String) (excluded : List String)
    (payload : List (String × String)) (fs : FsState) : FsState :=
  (fs.filter (fun e => (!e.1.startsWith (dest ++ "/")) ||
      excluded.any (fun x => e.1 == dest ++ "/" ++ x))) ++
    ((payload.filter (fun p => !excluded.contains p.1)).map
      (fun p => (dest ++ "/" ++ p.1, p.2)))

/-- Modelled from the spec: the deployment pipeline of section 4.4 is
absent from src (the design notes call the deploy endpoint a stub), so
the steps are taken from the design: resolve the artifact id in the
current manifest, returning ArtifactNotFound with the disk untouched when
it is absent; otherwise back up when requested, run the pre-install hook,
install the staged payload respecting exclusions, and run the post-install
hook, whose failure is reported without rolling back.  Hook outcomes come
from the hookOk oracle; the payload is given already staged as a list of
relative file names with contents. -/
def deploy (hookOk : String → Bool) (m : Heim) (artifact_id : String)
    (payload : List (String × String)) (fs : FsState) :
    Except DeployError DeployResult × FsState :=
  match m.deploy.artifacts.find? (fun a => a.id == artifact_id) with
  | none => (.error .ArtifactNotFound, fs)
  | some a =>
    let dest := m.deploy.root_path ++ "/" ++ a.destination
    let backupLoc := if a.backup then some ("backup/" ++ a.id) else none
    let fs1 := if a.backup then deployBackup a.id dest fs else fs
    let beforeOk := match a.run_before with
      | none => true
      | some r => runHook hookOk r
    if beforeOk then
      let fs2 := deployInstall dest (a.excluded_files.getD []) payload fs1
      let afterOk := match a.run_after with
        | none => true
        | some r => runHook hookOk r
      (.ok ⟨a.id, true, backupLoc,
        if afterOk then [] else ["run_after hook failed"]⟩, fs2)
    else
      (.error (.HookFailed ("before") ("hook exited non-zero")), fs1)

/-- Manifest value whose two artifacts share one id, used to probe the
duplicate-id validation of the loader. -/
def dupManifest : Json :=
  Json.obj [("deploy", Json.obj [("root_path", Json.str ("r")),
    ("artifacts", Json.arr [
      Json.obj [("id", Json.str ("a")), ("kind", Json.str ("java")),
        ("backup", Json.bool true), ("destination", Json.str ("d1"))],
      Json.obj [("id", Json.str ("a")), ("kind", Json.str ("java")),
        ("backup", Json.bool true), ("destination", Json.str ("d2"))]])])]

/-- The decoded form of dupManifest. -/
def dupHeim : Heim :=
  ⟨⟨"r", [⟨"a", "java", true, "d1", none, none, none⟩,
    ⟨"a", "java", true, "d2", none, none, none⟩]⟩⟩

/-- Manifest value with an empty root_path and an absolute destination,
used to probe the path validation of the loader. -/
def badPathManifest : Json :=
  Json.obj [("deploy", Json.obj [("root_path", Json.str ("")),
    ("artifacts", Json.arr [
      Json.obj [("id", Json.str ("a")), ("kind", Json.str ("k")),
        ("backup", Json.bool false), ("destination", Json.str ("/abs"))]])])]

/-- The decoded form of badPathManifest. -/
def badPathHeim : Heim := ⟨⟨"", [⟨"a", "k", false, "/abs", none, none, none⟩]⟩⟩

/-- A one-artifact manifest used to exercise the deployment pipeline. -/
def exampleHeim : Heim :=
  ⟨⟨"root", [⟨"svc1", "java", true, "svc1", none, none, none⟩]⟩⟩

/-- C2 counterexample: a manifest whose two artifacts share the id a is
loaded successfully by load_heim, so loading does not fail on duplicate
ids and the duplicate-id invariant is not validated after decode. -/
theorem load_heim_admits_duplicate_ids :
    hasDuplicateIds dupHeim.deploy.artifacts = true ∧
    load_heim (some dupManifest) = Except.ok dupHeim := by
  constructor
  · rfl
  · rfl

/-- C2 amended: load_heim performs no duplicate-id validation; every
successfully decoded manifest is returned as loaded, duplicate artifact
ids included. -/
theorem load_heim_no_duplicate_check (j : Json) (h : Heim)
    (hd : Heim.fromJson? j = Except.ok h)
    (_hdup : hasDuplicateIds h.deploy.artifacts = true) :
    load_heim (some j) = Except.ok h := by
  simp [load_heim, hd]

/-- Witness for load_heim_no_duplicate_check at the concrete duplicate-id
manifest. -/
theorem load_heim_no_duplicate_check_witness :
    load_heim (some dupManifest) = Except.ok dupHeim :=
  load_heim_no_duplicate_check dupManifest dupHeim (by rfl) (by rfl)

/-- C3 counterexample: a manifest with an empty root_path and an absolute
artifact destination is admitted whole by load_heim, so no post-decode
path validation rejects it. -/
theorem load_heim_admits_bad_paths :
    badPathHeim.deploy.root_path.isEmpty = true ∧
    destinationSafe ("/abs") = false ∧
    load_heim (some badPathManifest) = Except.ok badPathHeim := by
  refine ⟨by decide, by decide, by rfl⟩

/-- C3 amended: load_heim performs no post-decode validation; a manifest
with an empty root_path or an unsafe artifact destination is admitted
whenever it decodes. -/
theorem load_heim_no_path_validation (j : Json) (h : Heim)
    (hd : Heim.fromJson? j = Except.ok h)
    (_hbad : h.deploy.root_path.isEmpty = true ∨
      h.deploy.artifacts.any (fun a => !destinationSafe a.destination) = true) :
    load_heim (some j) = Except.ok h := by
  simp [load_heim, hd]

/-- Witness for load_heim_no_path_validation at the concrete invalid-path
manifest. -/
theorem load_heim_no_path_validation_witness :
    load_heim (some badPathManifest) = Except.ok badPathHeim :=
  load_heim_no_path_validation badPathManifest badPathHeim (by rfl) (by left; rfl)

/-- C5 counterexample: the error value returned for an unreadable
manifest file equals the error value returned for malformed manifest
bytes, so the two failure causes are not distinguishable by the caller. -/
theorem load_heim_errors_indistinguishable :
    load_heim none = load_heim (some (Json.str ("x"))) ∧
    load_heim none = Except.error ⟨ErrorKind.ArtifactError, "Failed to read Heim.json."⟩ := by
  constructor <;> rfl

/-- C5 amended: both a read failure and a decode failure of the manifest
are reported as the same error, kind ArtifactError with the identical
message, the only kind the error enumeration has. -/
theorem load_heim_single_error_kind (j : Json) (e : String)
    (hj : Heim.fromJson? j = Except.error e) :
    load_heim none = Except.error ⟨ErrorKind.ArtifactError, "Failed to read Heim.json."⟩ ∧
    load_heim (some j) = Except.error ⟨ErrorKind.ArtifactError, "Failed to read Heim.json."⟩ := by
  refine ⟨rfl, ?_⟩
  simp [load_heim, hj]

/-- Witness for load_heim_single_error_kind at a malformed manifest value. -/
theorem load_heim_single_error_kind_witness :
    load_heim none = Except.error ⟨ErrorKind.ArtifactError, "Failed to read Heim.json."⟩ ∧
    load_heim (some Json.null) = Except.error ⟨ErrorKind.ArtifactError, "Failed to read Heim.json."⟩ :=
  load_heim_single_error_kind Json.null ("expected an object") (by rfl)

/-- C9: the POST /echo handler is the identity on its payload; for every
request body that decodes to a message payload, the handler returns that
payload unchanged and the response is its serialization. -/
theorem echo_identity (j : Json) (p : EchoPayload)
    (hp : EchoPayload.fromJson? j = Except.ok p) :
    echo p = p ∧ handleEcho j = Except.ok (EchoPayload.toJson p) := by
  refine ⟨rfl, ?_⟩
  unfold handleEcho
  rw [hp]
  rfl

/-- Witness for echo_identity at a concrete request body. -/
theorem echo_identity_witness :
    echo ⟨"hi"⟩ = (⟨"hi"⟩ : EchoPayload) ∧
    handleEcho (Json.obj [("message", Json.str ("hi"))]) =
      Except.ok (EchoPayload.toJson ⟨"hi"⟩) :=
  echo_identity (Json.obj [("message", Json.str ("hi"))]) ⟨"hi"⟩ (by rfl)

/-- C1: calling deploy with an artifact id not present in the current
manifest returns ArtifactNotFound and leaves the on-disk state untouched,
for every payload, manifest, hook oracle and starting state. -/
theorem deploy_unknown_id (hookOk : String → Bool) (m : Heim) (aid : String)
    (payload : List (String × String)) (fs : FsState)
    (habsent : ∀ a ∈ m.deploy.artifacts, a.id ≠ aid) :
    deploy hookOk m aid payload fs = (Except.error DeployError.ArtifactNotFound, fs) := by
  have hfind : m.deploy.artifacts.find? (fun a => a.id == aid) = none := by
    rw [List.find?_eq_none]
    intro a ha
    simpa using habsent a ha
  unfold deploy
  rw [hfind]

/-- Witness for deploy_unknown_id: deploying the id unknown against a
manifest holding only svc1 fails with ArtifactNotFound, state unchanged. -/
theorem deploy_unknown_id_witness :
    deploy (fun _ => true) exampleHeim ("unknown") [] [] =
      (Except.error DeployError.ArtifactNotFound, ([] : FsState)) :=
  deploy_unknown_id (fun _ => true) exampleHeim ("unknown") [] [] (by decide)

/-- The field names the Artifact struct declares; any other key on an
artifact object is unknown to the deserializer. -/
def artifactKeys : List String :=
  ["id", "kind", "backup", "destination", "excluded_files", "run_before", "run_after"]

/-- Appending an entry under a fresh key to an object leaves every other
lookup unchanged. -/
theorem jlookup_append_ne (k k2 : String) (v : Json) (o : List (String × Json))
    (h : k2 ≠ k) : jlookup k2 (o ++ [(k, v)]) = jlookup k2 o := by
  induction o with
  | nil => simp [jlookup, Ne.symm h]
  | cons e tl ih => simp [jlookup, ih]

/-- C6: omitting excluded_files, run_before and run_after on an artifact
object is not a decode error: whenever the four required fields are
present with their declared types and the optional keys are absent,
decoding succeeds and the optional fields default to none. -/
theorem artifact_optional_fields_default (o : List (String × Json))
    (i k d : String) (b : Bool)
    (hid : jlookup ("id") o = some (Json.str i))
    (hk : jlookup ("kind") o = some (Json.str k))
    (hb : jlookup ("backup") o = some (Json.bool b))
    (hd : jlookup ("destination") o = some (Json.str d))
    (hex : jlookup ("excluded_files") o = none)
    (hrb : jlookup ("run_before") o = none)
    (hra : jlookup ("run_after") o = none) :
    Artifact.fromJson? (Json.obj o) = Except.ok ⟨i, k, b, d, none, none, none⟩ := by
  simp [Artifact.fromJson?, reqField, optField, hid, hk, hb, hd, hex, hrb, hra,
    decodeString, decodeBool, Bind.bind, Except.bind]

/-- Witness for artifact_optional_fields_default at a concrete artifact
object carrying only the required fields. -/
theorem artifact_optional_fields_default_witness :
    Artifact.fromJson? (Json.obj [("id", Json.str ("a")), ("kind", Json.str ("k")),
        ("backup", Json.bool true), ("destination", Json.str ("d"))]) =
      Except.ok ⟨"a", "k", true, "d", none, none, none⟩ :=
  artifact_optional_fields_default
    [("id", Json.str ("a")), ("kind", Json.str ("k")),
      ("backup", Json.bool true), ("destination", Json.str ("d"))]
    ("a") ("k") ("d") true (by rfl) (by rfl) (by rfl) (by rfl) (by rfl) (by rfl) (by rfl)

/-- C7: unknown fields are ignored: appending a key the deserializer does
not know to the top-level object or to an artifact object changes neither
decoding outcome, so a successful decode still succeeds with the same
manifest value. -/
theorem unknown_fields_ignored :
    (∀ (o : List (String × Json)) (k : String) (v : Json), k ≠ "deploy" →
      Heim.fromJson? (Json.obj (o ++ [(k, v)])) = Heim.fromJson? (Json.obj o)) ∧
    (∀ (o : List (String × Json)) (k : String) (v : Json), k ∉ artifactKeys →
      Artifact.fromJson? (Json.obj (o ++ [(k, v)])) = Artifact.fromJson? (Json.obj o)) := by
  constructor
  · intro o k v hk
    simp only [Heim.fromJson?, reqField, jlookup_append_ne k ("deploy") v o (Ne.symm hk)]
  · intro o k v hk
    simp only [artifactKeys, List.mem_cons, List.not_mem_nil, or_false, not_or] at hk
    obtain ⟨h1, h2, h3, h4, h5, h6, h7⟩ := hk
    simp only [Artifact.fromJson?, reqField, optField,
      jlookup_append_ne k ("id") v o (Ne.symm h1),
      jlookup_append_ne k ("kind") v o (Ne.symm h2),
      jlookup_append_ne k ("backup") v o (Ne.symm h3),
      jlookup_append_ne k ("destination") v o (Ne.symm h4),
      jlookup_append_ne k ("excluded_files") v o (Ne.symm h5),
      jlookup_append_ne k ("run_before") v o (Ne.symm h6),
      jlookup_append_ne k ("run_after") v o (Ne.symm h7)]

/-- Witness for unknown_fields_ignored: appending the fresh key extra to
a concrete manifest object leaves the decoded value unchanged. -/
theorem unknown_fields_ignored_witness :
    Heim.fromJson? (Json.obj ([("deploy", Json.obj [("root_path", Json.str ("r")),
        ("artifacts", Json.arr [])])] ++ [("extra", Json.null)])) =
      Heim.fromJson? (Json.obj [("deploy", Json.obj [("root_path", Json.str ("r")),
        ("artifacts", Json.arr [])])]) :=
  unknown_fields_ignored.1
    [("deploy", Json.obj [("root_path", Json.str ("r")), ("artifacts", Json.arr [])])]
    ("extra") Json.null (by decide)

/-- Binding an error propagates the error. -/
theorem except_bind_error (e : E) (f : A → Except E B) :
    ((Except.error e : Except E A) >>= f) = Except.error e := rfl

/-- Binding a success applies the continuation. -/
theorem except_bind_ok (a : A) (f : A → Except E B) :
    ((Except.ok a : Except E A) >>= f) = f a := rfl

/-- An error result is not ok. -/
theorem isOk_error (e : E) : (Except.error e : Except E A).isOk = false := rfl

/-- A success result is ok. -/
theorem isOk_ok (a : A) : (Except.ok a : Except E A).isOk = true := rfl

/-- Mapping does not change whether a result is ok. -/
theorem isOk_map (f : A → B) (x : Except E A) :
    (Except.map f x).isOk = x.isOk := by
  cases x <;> rfl

/-- A bound computation is only ok when its first stage is. -/
theorem except_bind_isOk (x : Except E A) (f : A → Except E B)
    (h : (x >>= f).isOk = true) : ∃ a, x = Except.ok a ∧ (f a).isOk = true := by
  cases x with
  | error e => simp [except_bind_error, isOk_error] at h
  | ok a => exact ⟨a, rfl, h⟩

/-- A successful required field pins down the lookup and its decode. -/
theorem reqField_ok_lookup (f : Json → Except String A) (o : List (String × Json))
    (k : String) (a : A) (h : reqField f o k = Except.ok a) :
    ∃ v, jlookup k o = some v ∧ f v = Except.ok a := by
  unfold reqField at h
  cases hv : jlookup k o with
  | none => rw [hv] at h; cases h
  | some v => rw [hv] at h; exact ⟨v, rfl, h⟩

/-- A successful map pins down the mapped value. -/
theorem except_map_eq_ok (f : A → B) (x : Except E A) (b : B)
    (h : Except.map f x = Except.ok b) : ∃ a, x = Except.ok a ∧ f a = b := by
  cases x with
  | error e => cases h
  | ok a => simp [Except.map] at h; exact ⟨a, rfl, h⟩

/-- True when the value is a JSON object. -/
def isObj : Json → Bool
  | .obj _ => true
  | _ => false

/-- True when an artifact entry is not an object or lacks one of the four
required fields id, kind, backup and destination. -/
def missingRequired (j : Json) : Bool :=
  match j with
  | .obj o => (jlookup ("id") o).isNone || (jlookup ("kind") o).isNone ||
      (jlookup ("backup") o).isNone || (jlookup ("destination") o).isNone
  | _ => true

/-- True when the manifest value reaches an artifacts array containing an
entry that is missing a required field. -/
def hasBadArtifact (j : Json) : Bool :=
  match j with
  | .obj o =>
    match jlookup ("deploy") o with
    | some (.obj d) =>
      match jlookup ("artifacts") d with
      | some (.arr l) => l.any missingRequired
      | _ => false
    | _ => false
  | _ => false

/-- An artifact entry missing a required field never decodes. -/
theorem artifact_missing_errors (j : Json) (hm : missingRequired j = true) :
    (Artifact.fromJson? j).isOk = false := by
  cases j
  case obj o =>
    simp only [missingRequired, Bool.or_eq_true, Option.isNone_iff_eq_none] at hm
    simp only [Artifact.fromJson?]
    rcases hm with ((h | h) | h) | h
    · simp [reqField, h, except_bind_error, isOk_error]
    · cases h1 : reqField decodeString o ("id") with
      | error e => simp [h1, except_bind_error, isOk_error]
      | ok i => simp [h1, except_bind_ok, reqField, h, except_bind_error, isOk_error]
    · cases h1 : reqField decodeString o ("id") with
      | error e => simp [h1, except_bind_error, isOk_error]
      | ok i =>
        cases h2 : reqField decodeString o ("kind") with
        | error e => simp [h1, h2, except_bind_ok, except_bind_error, isOk_error]
        | ok k =>
          simp [h1, h2, except_bind_ok, reqField, h, except_bind_error, isOk_error]
    · cases h1 : reqField decodeString o ("id") with
      | error e => simp [h1, except_bind_error, isOk_error]
      | ok i =>
        cases h2 : reqField decodeString o ("kind") with
        | error e => simp [h1, h2, except_bind_ok, except_bind_error, isOk_error]
        | ok k =>
          cases h3 : reqField decodeBool o ("backup") with
          | error e => simp [h1, h2, h3, except_bind_ok, except_bind_error, isOk_error]
          | ok b =>
            simp [h1, h2, h3, except_bind_ok, reqField, h, except_bind_error, isOk_error]
  all_goals rfl

/-- A list decode fails whenever one of its members fails. -/
theorem decodeList_error_of_mem (f : Json → Except String A) (l : List Json)
    (j : Json) (hmem : j ∈ l) (hf : (f j).isOk = false) :
    (decodeList f l).isOk = false := by
  induction l with
  | nil => cases hmem
  | cons a tl ih =>
    rcases List.mem_cons.mp hmem with rfl | hmem2
    · cases hfa : f j with
      | error e => simp [decodeList, hfa, except_bind_error, isOk_error]
      | ok x => rw [hfa] at hf; simp [isOk_ok] at hf
    · cases hfa : f a with
      | error e => simp [decodeList, hfa, except_bind_error, isOk_error]
      | ok x =>
        have hrec := ih hmem2
        cases hdl : decodeList f tl with
        | error e2 =>
          simp [decodeList, hfa, hdl, except_bind_ok, except_bind_error, isOk_error]
        | ok xs => rw [hdl] at hrec; simp [isOk_ok] at hrec

/-- C4: decoding returns an error rather than a manifest whenever the
input structure is malformed (not an object) or any artifact entry is
missing one of the required fields id, kind, backup or destination. -/
theorem decode_rejects_bad_input (j : Json)
    (h : isObj j = false ∨ hasBadArtifact j = true) :
    (Heim.fromJson? j).isOk = false := by
  rcases h with h | h
  · cases j
    case obj o => simp [isObj] at h
    all_goals rfl
  · cases j
    case obj o =>
      cases hdep : jlookup ("deploy") o with
      | none => simp [hasBadArtifact, hdep] at h
      | some dj =>
        cases dj
        case obj d =>
          cases harts : jlookup ("artifacts") d with
          | none => simp [hasBadArtifact, hdep, harts] at h
          | some aj =>
            cases aj
            case arr l =>
              have hany : l.any missingRequired = true := by
                simpa [hasBadArtifact, hdep, harts] using h
              obtain ⟨a, hmem, hma⟩ := List.any_eq_true.mp hany
              have hart : (Artifact.fromJson? a).isOk = false :=
                artifact_missing_errors a hma
              have hlist : (decodeList Artifact.fromJson? l).isOk = false :=
                decodeList_error_of_mem Artifact.fromJson? l a hmem hart
              simp only [Heim.fromJson?, reqField, hdep, isOk_map]
              simp only [Deploy.fromJson?]
              cases hroot : reqField decodeString d ("root_path") with
              | error e => simp [hroot, except_bind_error, isOk_error]
              | ok r =>
                simp only [hroot, except_bind_ok, reqField, harts, decodeArr]
                cases hdl : decodeList Artifact.fromJson? l with
                | error e2 => simp [hdl, except_bind_error, isOk_error]
                | ok xs => rw [hdl] at hlist; simp [isOk_ok] at hlist
            all_goals simp [hasBadArtifact, hdep, harts] at h
        all_goals simp [hasBadArtifact, hdep] at h
    all_goals simp [hasBadArtifact] at h

/-- Witness for decode_rejects_bad_input: a manifest whose only artifact
lacks kind, backup and destination is rejected by the decoder. -/
theorem decode_rejects_bad_input_witness :
    (Heim.fromJson? (Json.obj [("deploy", Json.obj [("root_path", Json.str ("r")),
      ("artifacts", Json.arr [Json.obj [("id", Json.str ("a"))]])])])).isOk = false :=
  decode_rejects_bad_input
    (Json.obj [("deploy", Json.obj [("root_path", Json.str ("r")),
      ("artifacts", Json.arr [Json.obj [("id", Json.str ("a"))]])])])
    (Or.inr (by rfl))

/-- Decoding an optional string written by the serializer restores it. -/
theorem decodeOpt_str (so : Option String) :
    decodeOpt decodeString (optJson Json.str so) = Except.ok so := by
  cases so <;> rfl

/-- Decoding a written string list restores it. -/
theorem decodeList_str (l : List String) :
    decodeList decodeString (l.map Json.str) = Except.ok l := by
  induction l with
  | nil => rfl
  | cons a tl ih => simp [decodeList, decodeString, ih, except_bind_ok]

/-- Decoding an optional string list written by the serializer restores it. -/
theorem decodeOpt_strList (lo : Option (List String)) :
    decodeOpt (decodeArr decodeString)
      (optJson (fun l => Json.arr (l.map Json.str)) lo) = Except.ok lo := by
  cases lo with
  | none => rfl
  | some l => simp [decodeOpt, optJson, decodeArr, decodeList_str, Except.map]

/-- Round trip of a hook record through its serializer. -/
theorem run_fromJson_toJson (r : Run) :
    Run.fromJson? (Run.toJson r) = Except.ok r := by
  cases r with
  | mk p => simp [Run.toJson, Run.fromJson?, optField, jlookup, decodeOpt_str, Except.map]

/-- Decoding an optional hook written by the serializer restores it. -/
theorem decodeOpt_run (ro : Option Run) :
    decodeOpt Run.fromJson? (optJson Run.toJson ro) = Except.ok ro := by
  cases ro with
  | none => rfl
  | some r =>
    cases r with
    | mk p => cases p <;> rfl

/-- Round trip of one artifact through its serializer. -/
theorem artifact_fromJson_toJson (a : Artifact) :
    Artifact.fromJson? (Artifact.toJson a) = Except.ok a := by
  cases a with
  | mk i k b d ex rb ra =>
    simp only [Artifact.toJson, Artifact.fromJson?, reqField, optField, jlookup]
    simp [decodeString, decodeBool, decodeOpt_str, decodeOpt_strList, decodeOpt_run,
      except_bind_ok]

/-- Round trip of an artifact list through the serializer. -/
theorem decodeList_artifacts (l : List Artifact) :
    decodeList Artifact.fromJson? (l.map Artifact.toJson) = Except.ok l := by
  induction l with
  | nil => rfl
  | cons a tl ih => simp [decodeList, artifact_fromJson_toJson, ih, except_bind_ok]

/-- Round trip of a whole manifest through the serializer. -/
theorem heim_fromJson_toJson (m : Heim) :
    Heim.fromJson? (Heim.toJson m) = Except.ok m := by
  cases m with
  | mk dep =>
    cases dep with
    | mk r arts =>
      simp [Heim.toJson, Heim.fromJson?, Deploy.fromJson?, reqField, jlookup,
        decodeString, decodeArr, decodeList_artifacts, except_bind_ok, Except.map]

/-- C8: for every manifest value that passes validation, serializing it,
re-parsing the bytes and validating the result succeeds. -/
theorem validate_roundtrip (m : Heim) (hv : validate m = Except.ok ()) :
    (Heim.fromJson? (Heim.toJson m)).bind validate = Except.ok () := by
  rw [heim_fromJson_toJson]
  exact hv

/-- Witness for validate_roundtrip at a concrete valid manifest. -/
theorem validate_roundtrip_witness :
    (Heim.fromJson? (Heim.toJson exampleHeim)).bind validate = Except.ok () :=
  validate_roundtrip exampleHeim (by rfl)

/-- C10: load_config only returns a Config when the log, service and host
sections are all present and the host port is an integer within the u16
range 0 to 65535; any Config.toml violating one of these yields an error. -/
theorem load_config_port_range (o : List (String × Json))
    (hok : (load_config (some (Json.obj o))).isOk = true) :
    (∃ lj, jlookup ("log") o = some lj) ∧
    (∃ sj, jlookup ("service") o = some sj) ∧
    (∃ d n, jlookup ("host") o = some (Json.obj d) ∧
      jlookup ("port") d = some (Json.num n) ∧ 0 ≤ n ∧ n < 65536) := by
  have hcfg : (Config.fromToml (Json.obj o)).isOk = true := hok
  simp only [Config.fromToml] at hcfg
  obtain ⟨lv, hl, hcfg2⟩ := except_bind_isOk _ _ hcfg
  obtain ⟨sv, hs, hcfg3⟩ := except_bind_isOk _ _ hcfg2
  obtain ⟨hv, hh, _⟩ := except_bind_isOk _ _ hcfg3
  obtain ⟨lj, hlj, _⟩ := reqField_ok_lookup _ _ _ _ hl
  obtain ⟨sj, hsj, _⟩ := reqField_ok_lookup _ _ _ _ hs
  obtain ⟨hj, hhj, hhv⟩ := reqField_ok_lookup _ _ _ _ hh
  refine ⟨⟨lj, hlj⟩, ⟨sj, hsj⟩, ?_⟩
  cases hj
  case obj d =>
    simp only [Host.fromToml] at hhv
    obtain ⟨p, hp, _⟩ := except_map_eq_ok _ _ _ hhv
    obtain ⟨pj, hpj, hdec⟩ := reqField_ok_lookup _ _ _ _ hp
    cases pj
    case num n =>
      simp only [decodeU16] at hdec
      by_cases hrange : 0 ≤ n ∧ n < 65536
      · exact ⟨d, n, hhj, hpj, hrange.1, hrange.2⟩
      · rw [if_neg hrange] at hdec; cases hdec
    all_goals cases hdec
  all_goals cases hhv

/-- Witness for load_config_port_range at a concrete well-formed
configuration with port 3000. -/
theorem load_config_port_range_witness :
    (∃ lj, jlookup ("log")
      [("log", Json.obj [("path", Json.str ("service.log"))]),
       ("service", Json.obj [("active", Json.bool true)]),
       ("host", Json.obj [("port", Json.num 3000)])] = some lj) ∧
    (∃ sj, jlookup ("service")
      [("log", Json.obj [("path", Json.str ("service.log"))]),
       ("service", Json.obj [("active", Json.bool true)]),
       ("host", Json.obj [("port", Json.num 3000)])] = some sj) ∧
    (∃ d n, jlookup ("host")
      [("log", Json.obj [("path", Json.str ("service.log"))]),
       ("service", Json.obj [("active", Json.bool true)]),
       ("host", Json.obj [("port", Json.num 3000)])] = some (Json.obj d) ∧
      jlookup ("port") d = some (Json.num n) ∧ 0 ≤ n ∧ n < 65536) :=
  load_config_port_range
    [("log", Json.obj [("path", Json.str ("service.log"))]),
     ("service", Json.obj [("active", Json.bool true)]),
     ("host", Json.obj [("port", Json.num 3000)])] (by rfl)
